import Mathlib

/-!
# Verification of the pioreactorui client synchronization/dispatch layer

A shallow embedding, in Lean 4, of the client-side core of the
`pioreactorui` repository:

* `MediaCard.jsx` — the streaming aggregator of media/alt-media throughput
  telemetry (`addOrUpdate`, `onMessageArrived`, `getRecentRates`,
  the constructor's initial state, and the MQTT `connect` call);
* `ErrorSnackbar.jsx` — the log-message notification handler
  (`onMessageArrived` over log topics, and its MQTT `connect` call);
* `ButtonChangeDosingDialog` — the dosing-automation command dispatcher
  (`onSubmit`, which builds the MQTT message, publishes it at QoS 2 and
  opens a confirmation snackbar);
* `DownloadData.jsx` — the export form's submit guard
  (`DownloadDataFormContainer.onSubmit`).

JavaScript numbers are modelled as `JsNum`: either a rational (`ℚ`) or
`NaN`; JS objects used as string-keyed dictionaries are modelled as
association lists in insertion order, matching JS object key order.
-/

set_option autoImplicit false

/-- A JavaScript number: a finite value (modelled as `ℚ`) or `NaN`.
(`Infinity` never arises on the code paths embedded here.) -/
inductive JsNum where
  | nan : JsNum
  | num : ℚ → JsNum
  deriving DecidableEq, Repr

/-- JS `+` on numbers: `NaN` is absorbing, finite values add as rationals. -/
def jsAdd : JsNum → JsNum → JsNum
  | JsNum.num a, JsNum.num b => JsNum.num (a + b)
  | _, _ => JsNum.nan

/-- JS `value + object[hash]` where the property read may give `undefined`:
adding `undefined` to a number yields `NaN`. -/
def jsAddOpt (v : JsNum) : Option JsNum → JsNum
  | none => JsNum.nan
  | some w => jsAdd v w

/-- A JS object used as a string-keyed dictionary of numbers, in key
insertion order (JS objects preserve insertion order for string keys). -/
abbrev JsObj := List (String × JsNum)

/-- Property read `object[k]`: first binding of `k`, or `undefined` (`none`). -/
def getProp : JsObj → String → Option JsNum
  | [], _ => none
  | (k', v') :: rest, k => if k' = k then some v' else getProp rest k

/-- Property write `object[k] = v`: overwrite in place if the key exists,
else append (JS appends new string keys at the end of insertion order). -/
def setProp : JsObj → String → JsNum → JsObj
  | [], k, v => [(k, v)]
  | (k', v') :: rest, k, v =>
      if k' = k then (k, v) :: rest else (k', v') :: setProp rest k v

/-- Fleet-total recomputation `Object.values(o).reduce((a, b) => a + b, 0)` in `MediaCard.onMessageArrived` (line 113). -/
def sumValues (o : JsObj) : JsNum :=
  o.foldl (fun a p => jsAdd a p.2) (JsNum.num 0)

/-- The own property names of the JavaScript `Object` constructor (ES2022).
`MediaCard.addOrUpdate` (line 92) tests `Object.hasOwnProperty(hash)`,
which consults exactly this set — the `Object` constructor itself — and not
the `object` parameter being updated. -/
def jsObjectConstructorOwnProps : List String :=
  ["length", "name", "prototype", "assign", "getOwnPropertyDescriptor",
   "getOwnPropertyDescriptors", "getOwnPropertyNames", "getOwnPropertySymbols",
   "hasOwn", "is", "preventExtensions", "seal", "create", "defineProperties",
   "defineProperty", "freeze", "getPrototypeOf", "setPrototypeOf",
   "isExtensible", "isFrozen", "isSealed", "keys", "entries", "fromEntries",
   "values"]

/-- Splitter for JS `string.split("/")` over a character list: `acc` holds
the (reversed) characters of the current segment. -/
def splitSlashAux : List Char → List Char → List (List Char)
  | [], acc => [acc.reverse]
  | c :: cs, acc =>
      if c = '/' then acc.reverse :: splitSlashAux cs []
      else splitSlashAux cs (c :: acc)

/-- JS `topic.split("/")` — e.g. `"a/b"` ↦ `["a", "b"]`, `""` ↦ `[""]`,
`"a/"` ↦ `["a", ""]`, matching `String.prototype.split` with a
one-character separator. -/
def jsSplitSlash (s : String) : List String :=
  (splitSlashAux s.toList []).map (fun l => String.mk l)

/-- JS `s.endsWith(t)`. -/
def jsEndsWith (s t : String) : Bool :=
  List.isSuffixOf t.toList s.toList

/-- Digit run taken greedily from the front of a character list. -/
def takeDigits : List Char → List Char × List Char
  | [] => ([], [])
  | c :: cs =>
      if c.isDigit then
        let (ds, rest) := takeDigits cs
        (c :: ds, rest)
      else ([], c :: cs)

/-- Value of a digit run read in base 10. -/
def digitsToNat (ds : List Char) : ℕ :=
  ds.foldl (fun a c => 10 * a + (c.toNat - 48)) 0

/-- JS `parseFloat`, restricted to the payload shapes relevant here: an
optional sign followed by a plain decimal literal taken as the longest
numeric front of the string (`"2.5"` ↦ `5/2`, `"2.5x"` ↦ `5/2`); a string
with no leading numeric part (e.g. `"garbage"`, `""`) yields `NaN`.
(Exponents, `Infinity` and leading whitespace are not modelled; no such
payloads occur in the embedded paths.) -/
def jsParseFloat (s : String) : JsNum :=
  let cs := s.toList
  let signAndRest : ℚ × List Char :=
    match cs with
    | '-' :: rest => (-1, rest)
    | '+' :: rest => (1, rest)
    | _ => (1, cs)
  let (intDs, cs2) := takeDigits signAndRest.2
  match cs2 with
  | '.' :: cs3 =>
      let (fracDs, _) := takeDigits cs3
      if intDs.isEmpty && fracDs.isEmpty then JsNum.nan
      else JsNum.num (signAndRest.1 *
        ((digitsToNat intDs : ℚ) + (digitsToNat fracDs : ℚ) / 10 ^ fracDs.length))
  | _ =>
      if intDs.isEmpty then JsNum.nan
      else JsNum.num (signAndRest.1 * (digitsToNat intDs : ℚ))

/-- One rate row of the `/recent_media_rates/{experiment}` response:
`{mediaRate, altMediaRate}`. -/
structure RateEntry where
  mediaRate : JsNum
  altMediaRate : JsNum
  deriving DecidableEq, Repr

/-- The fetched rate table (the spec's `RateSnapshot`): the `all` row plus
one row per unit — the JSON shape
`{all: {mediaRate, altMediaRate}, <unit>: {...}, ...}`. -/
structure RateSnapshot where
  all : RateEntry
  perUnit : List (String × RateEntry)
  deriving DecidableEq, Repr

/-- The `MediaCard` component state (constructor, lines 42–48). -/
structure MediaCardState where
  mediaThroughputPerUnit : JsObj
  altMediaThroughputPerUnit : JsObj
  mediaThroughput : JsNum
  altMediaThroughput : JsNum
  rates : RateSnapshot
  deriving DecidableEq, Repr

/-- The fresh state set in `MediaCard`'s constructor: empty per-unit maps,
zero totals, and the all-zero default rate snapshot
`{all: {mediaRate: 0, altMediaRate: 0}}`. -/
def initialMediaCardState : MediaCardState :=
  { mediaThroughputPerUnit := []
    altMediaThroughputPerUnit := []
    mediaThroughput := JsNum.num 0
    altMediaThroughput := JsNum.num 0
    rates := { all := { mediaRate := JsNum.num 0, altMediaRate := JsNum.num 0 },
               perUnit := [] } }

/-- Embedding of `MediaCard.addOrUpdate(hash, object, value)` (lines 91–99),
exactly: the guard is `Object.hasOwnProperty(hash)` — a property test on
the JS `Object` constructor, not on the `object` argument — so the
accumulate branch `object[hash] = value + object[hash]` runs only when
`hash` names an own property of the `Object` constructor; for every other
key the else branch `object[hash] = value` overwrites. -/
def addOrUpdate (hash : String) (object : JsObj) (value : JsNum) : JsObj :=
  if jsObjectConstructorOwnProps.contains hash then
    setProp object hash (jsAddOpt value (getProp object hash))
  else
    setProp object hash value

/-- The body of `MediaCard.onMessageArrived` (lines 101–118) after
`parseFloat`: split the topic, take segment 1 as the unit (JS
`topicParts[1]`, which is `undefined` — coerced to the key `"undefined"`
— when absent), select the per-unit map and total by whether the last
segment is `"alt_media_throughput"`, update the map with `addOrUpdate`,
and recompute that total as `Object.values(map).reduce((a,b) => a+b, 0)`
over the updated map (the in-place mutation in `addOrUpdate` makes the
reduce on line 113 see the updated values). -/
def routeTelemetry (topic : String) (payload : JsNum) (s : MediaCardState) :
    MediaCardState :=
  let topicParts := jsSplitSlash topic
  let unit := topicParts.getD 1 "undefined"
  if topicParts.getLast? = some "alt_media_throughput" then
    let obj := addOrUpdate unit s.altMediaThroughputPerUnit payload
    { s with altMediaThroughputPerUnit := obj, altMediaThroughput := sumValues obj }
  else
    let obj := addOrUpdate unit s.mediaThroughputPerUnit payload
    { s with mediaThroughputPerUnit := obj, mediaThroughput := sumValues obj }

/-- Embedding of `MediaCard.onMessageArrived(message)` (lines 101–118):
`parseFloat(message.payloadString)` followed by the routed update. -/
def onMessageArrived (topic payloadString : String) (s : MediaCardState) :
    MediaCardState :=
  routeTelemetry topic (jsParseFloat payloadString) s

/-- The two telemetry metrics: `Primary` is `media_throughput`,
`Secondary` is `alt_media_throughput`. -/
inductive Metric where
  | Primary : Metric
  | Secondary : Metric
  deriving DecidableEq, Repr

/-- The spec's `TelemetryDelta` (its `receivedAt` timestamp is never read
by the aggregator and is omitted). -/
structure TelemetryDelta where
  unit : String
  metric : Metric
  value : JsNum
  deriving DecidableEq, Repr

/-- The metric's topic leaf segment. -/
def Metric.segment : Metric → String
  | Metric.Primary => "media_throughput"
  | Metric.Secondary => "alt_media_throughput"

/-- The telemetry topic a delta arrives on (the subscriptions of
`MediaCard.onConnect`, lines 87–88, with `+` bound to the unit). -/
def telemetryTopic (experiment : String) (d : TelemetryDelta) : String :=
  "pioreactor/" ++ d.unit ++ "/" ++ experiment ++ "/throughput_calculating/" ++
    d.metric.segment

/-- The aggregator's `applyDelta`: `onMessageArrived` specialized to a
well-formed telemetry topic, where the routing on lines 106–107 has
selected the per-unit map and total of the delta's metric. -/
def applyDelta (d : TelemetryDelta) (s : MediaCardState) : MediaCardState :=
  match d.metric with
  | Metric.Primary =>
      let obj := addOrUpdate d.unit s.mediaThroughputPerUnit d.value
      { s with mediaThroughputPerUnit := obj, mediaThroughput := sumValues obj }
  | Metric.Secondary =>
      let obj := addOrUpdate d.unit s.altMediaThroughputPerUnit d.value
      { s with altMediaThroughputPerUnit := obj, altMediaThroughput := sumValues obj }

/-- A sequence of deltas applied in arrival order. -/
def applyDeltas (ds : List TelemetryDelta) (s : MediaCardState) : MediaCardState :=
  ds.foldl (fun s d => applyDelta d s) s

/-- Outcome of the browser `fetch` of `/recent_media_rates/{experiment}`,
as the Fetch API behaves: the `fetch` promise rejects only on network
failure; an HTTP response of any status — 2xx or not — resolves, carrying
`ok = response.ok` and a body that either parses as JSON
(`jsonBody = some data`) or makes `response.json()` reject
(`jsonBody = none`). -/
inductive FetchOutcome where
  | networkFailure : FetchOutcome
  | response (ok : Bool) (jsonBody : Option RateSnapshot) : FetchOutcome
  deriving DecidableEq, Repr

/-- Embedding of `MediaCard.getRecentRates` (lines 53–61) as a state
transformer on the fetch outcome. The source never reads `response.ok`:
whenever `response.json()` resolves — whatever the HTTP status — the
`setState` continuation runs and replaces `rates` wholesale (spreading the
previous state otherwise). The state is left untouched only when the chain
rejects before that continuation: a network failure, or a body that fails
to parse as JSON. -/
def getRecentRates (outcome : FetchOutcome) (s : MediaCardState) :
    MediaCardState :=
  match outcome with
  | FetchOutcome.networkFailure => s
  | FetchOutcome.response _ none => s
  | FetchOutcome.response _ (some data) => { s with rates := data }

/-- Decoded log payload of a `pioreactor/+/+/logs/+` message:
`{level, message, task}`. -/
structure LogPayload where
  level : String
  message : String
  task : String
  deriving DecidableEq, Repr

/-- The `ErrorSnackbar` notification state (`useState` hooks, lines 9–14).
`isOpen` models the `open` state variable; `renamedUnit` is `none` when the
JS value is `undefined` (a relabel-map miss). -/
structure SnackbarState where
  isOpen : Bool
  renamedUnit : Option String
  unit : String
  msg : String
  level : String
  task : String
  deriving DecidableEq, Repr

/-- The initial `ErrorSnackbar` state: closed, empty strings, level
`"error"`. -/
def initialSnackbarState : SnackbarState :=
  { isOpen := false, renamedUnit := some "", unit := "", msg := "",
    level := "error", task := "" }

/-- JS property read `relabelMap[unit]`: the label, or `undefined`. -/
def lookupLabel : List (String × String) → String → Option String
  | [], _ => none
  | (k, v) :: rest, u => if k = u then some v else lookupLabel rest u

/-- Embedding of `ErrorSnackbar`'s `onMessageArrived` (lines 45–61), after
the payload has decoded: when the level is exactly `"ERROR"` or
`"WARNING"` and the topic does not end with `"/ui"`, set the renamed unit
from the relabel map, the message, task, level and unit (topic segment 1),
and open the snackbar; otherwise do nothing. (The `try`/`catch` around
`setRenamedUnit` never fires: a JS property read cannot throw here.) -/
def snackbarOnMessage (relabelMap : List (String × String)) (topic : String)
    (payload : LogPayload) (s : SnackbarState) : SnackbarState :=
  if (payload.level == "ERROR" || payload.level == "WARNING")
      && !(jsEndsWith topic "/ui") then
    let unit := (jsSplitSlash topic).getD 1 "undefined"
    { s with renamedUnit := lookupLabel relabelMap unit,
             msg := payload.message, task := payload.task,
             level := payload.level, unit := unit, isOpen := true }
  else s

/-- Settings serialized by `ButtonChangeDosingDialog.onSubmit`: the
`algoSettings` state `{automation_key, skip_first_run}` (line 50). -/
structure AlgoSettings where
  automation_key : String
  skip_first_run : Bool
  deriving DecidableEq, Repr

/-- JSON serialization `JSON.stringify(algoSettings)` (line 120): keys in
JS object insertion order (`automation_key` first). -/
def jsonStringifyAlgoSettings (a : AlgoSettings) : String :=
  "\x7b\"automation_key\":\"" ++ a.automation_key ++ "\",\"skip_first_run\":" ++
    (if a.skip_first_run then "true" else "false") ++ "\x7d"

/-- JS `Array.prototype.join("/")`. -/
def joinSlash : List String → String
  | [] => ""
  | [s] => s
  | s :: rest => s ++ "/" ++ joinSlash rest

/-- An MQTT message as built by the dispatcher: destination topic, string
payload, QoS tier. -/
structure MqttMessage where
  destinationName : String
  payloadString : String
  qos : ℕ
  deriving DecidableEq, Repr

/-- The command message built by `ButtonChangeDosingDialog.onSubmit`
(lines 120–129): payload `JSON.stringify(algoSettings)`, topic
`["pioreactor", unit, experiment, "dosing_control", "dosing_automation",
"set"].join("/")`, `qos = 2`. -/
def dosingCommandMessage (unit experiment : String) (settings : AlgoSettings) :
    MqttMessage :=
  { destinationName :=
      joinSlash ["pioreactor", unit, experiment, "dosing_control",
                 "dosing_automation", "set"]
    payloadString := jsonStringifyAlgoSettings settings
    qos := 2 }

/-- Dialog state touched by the submit path: `isOpen` models the `open`
state (line 49), `openSnackbar` the confirmation snackbar (line 53). -/
structure DialogState where
  isOpen : Bool
  openSnackbar : Bool
  deriving DecidableEq, Repr

/-- Outcome of `client.publish(message)`: returns normally, or throws
(e.g. the paho client is not connected). -/
inductive PublishOutcome where
  | ok : PublishOutcome
  | publishError : PublishOutcome
  deriving DecidableEq, Repr

/-- What a run of `onSubmit` produced: the resulting dialog state, whether
the caught error was written to the developer console (`console.log(e)`,
line 135), and the message handed to `client.publish` when it returned
without throwing. -/
structure SubmitResult where
  state : DialogState
  consoleLogged : Bool
  published : Option MqttMessage
  deriving DecidableEq, Repr

/-- Embedding of `ButtonChangeDosingDialog.onSubmit` (lines 118–138):
build the command message; `try { client.publish(message);
setOpenSnackbar(true); } catch (e) { console.log(e) }`; finally
`setOpen(false)`. On a publish throw the snackbar is not opened and the
error goes to `console.log` only. -/
def onSubmitDosing (unit experiment : String) (settings : AlgoSettings)
    (publish : PublishOutcome) (s : DialogState) : SubmitResult :=
  let message := dosingCommandMessage unit experiment settings
  match publish with
  | PublishOutcome.ok =>
      { state := { s with openSnackbar := true, isOpen := false }
        consoleLogged := false
        published := some message }
  | PublishOutcome.publishError =>
      { state := { s with isOpen := false }
        consoleLogged := true
        published := none }

/-- Embedding of the dialog's `handleClose` (lines 102–104): close the
dialog, touch nothing else. -/
def handleClose (s : DialogState) : DialogState :=
  { s with isOpen := false }

/-- The paho-mqtt connect options relevant to reconnection: the `reconnect`
option (default `false` when absent), the `timeout` option, and whether an
`onSuccess` callback was supplied. -/
structure ConnectOptions where
  reconnect : Bool
  timeout : Option ℕ
  hasOnSuccess : Bool
  deriving DecidableEq, Repr

/-- The options of `MediaCard.componentDidMount`'s connect call (line 76):
`this.client.connect({'onSuccess': this.onConnect})` — no `reconnect` key,
so the paho default `false` applies. -/
def mediaCardConnectOptions : ConnectOptions :=
  { reconnect := false, timeout := none, hasOnSuccess := true }

/-- The options of `ErrorSnackbar`'s connect call (line 88):
`client.connect({onSuccess: onSuccess, timeout: 180, reconnect: true})`. -/
def errorSnackbarConnectOptions : ConnectOptions :=
  { reconnect := true, timeout := some 180, hasOnSuccess := true }

/-- The options of `ButtonChangeDosingDialog`'s connect call (line 93):
`client.connect()` — no options at all, so the paho default
`reconnect: false` applies. -/
def dosingDialogConnectOptions : ConnectOptions :=
  { reconnect := false, timeout := none, hasOnSuccess := false }

/-- Whether the paho client attempts automatic reconnection after the
connection drops: exactly the `reconnect` connect option. -/
def autoReconnectOnDrop (opts : ConnectOptions) : Bool :=
  opts.reconnect

/-- The dataset checkboxes of the download form (initial state, lines
135–142). -/
structure DatasetCheckbox where
  growth_rates : Bool
  io_events : Bool
  od_readings_raw : Bool
  od_readings_filtered : Bool
  logs : Bool
  alt_media_fraction : Bool
  deriving DecidableEq, Repr

/-- The `state` hook of `DownloadDataFormContainer` (lines 133–143):
experiment selection plus the dataset checkboxes. -/
structure DownloadFormState where
  experimentSelection : String
  datasetCheckbox : DatasetCheckbox
  deriving DecidableEq, Repr

/-- The UI state touched by the download form's submit path:
`isRunning`, `isError`, `errorMsg` (lines 130–132) and the form state. -/
structure DownloadUIState where
  isRunning : Bool
  isError : Bool
  errorMsg : String
  formState : DownloadFormState
  deriving DecidableEq, Repr

/-- The guard `Object.values(state['datasetCheckbox']).some((e) => e)`
(line 148): some dataset checkbox is checked. -/
def anyChecked (c : DatasetCheckbox) : Bool :=
  c.growth_rates || c.io_events || c.od_readings_raw ||
    c.od_readings_filtered || c.logs || c.alt_media_fraction

/-- The request issued by the submit path (lines 155–161): a POST to
`query_datasets` whose body is `JSON.stringify(state)`. -/
structure QueryDatasetsRequest where
  url : String
  methodPost : Bool
  body : DownloadFormState
  deriving DecidableEq, Repr

/-- Embedding of `DownloadDataFormContainer.onSubmit` (lines 145–176), up
to the issuing of the fetch: with no checkbox selected, set the error flag
and message and return without any request; otherwise set `isRunning` and
issue the POST. -/
def downloadOnSubmit (s : DownloadUIState) :
    DownloadUIState × Option QueryDatasetsRequest :=
  if !(anyChecked s.formState.datasetCheckbox) then
    ({ s with isError := true,
              errorMsg := "At least one dataset must be selected." }, none)
  else
    ({ s with isRunning := true },
      some { url := "query_datasets", methodPost := true, body := s.formState })

/-- The spec's aggregate invariant: each fleet total equals the sum of
that metric's per-unit totals over all known units. -/
def fleetInvariant (s : MediaCardState) : Prop :=
  s.mediaThroughput = sumValues s.mediaThroughputPerUnit ∧
  s.altMediaThroughput = sumValues s.altMediaThroughputPerUnit
/-- The scenario state of C1: the three Primary-metric deltas of the spec's
§8 scenario applied in order to the fresh state. -/
def c1Final : MediaCardState :=
  applyDeltas
    [⟨"u1", Metric.Primary, JsNum.num (5 / 2)⟩,
     ⟨"u2", Metric.Primary, JsNum.num 1⟩,
     ⟨"u1", Metric.Primary, JsNum.num (1 / 2)⟩]
    initialMediaCardState
/-- The once/twice states of C3: the same delta applied once and twice. -/
def c3Once : MediaCardState :=
  applyDelta ⟨"u1", Metric.Primary, JsNum.num (5 / 2)⟩ initialMediaCardState
/-- The C3 duplicate-delivery state. -/
def c3Twice : MediaCardState :=
  applyDelta ⟨"u1", Metric.Primary, JsNum.num (5 / 2)⟩ c3Once
/-- The C6 state: a telemetry message whose payload fails to decode as a
number, arriving at the fresh state. -/
def c6After : MediaCardState :=
  onMessageArrived "pioreactor/u1/expA/throughput_calculating/media_throughput"
    "garbage" initialMediaCardState

/-- A `MediaCard` state holding a previously loaded, non-default rate
snapshot (3 mL/h media for `u1` and fleet-wide), for the C5
counterexample. -/
def c5Held : MediaCardState :=
  { initialMediaCardState with
      rates :=
        { all := { mediaRate := JsNum.num 3, altMediaRate := JsNum.num 1 },
          perUnit :=
            [("u1", { mediaRate := JsNum.num 3, altMediaRate := JsNum.num 1 })] } }

/-- A JSON body carried by a failing (non-2xx) backend response in the C5
counterexample: it parses, and holds none of the previously shown rates. -/
def c5ErrorBody : RateSnapshot :=
  { all := { mediaRate := JsNum.num 0, altMediaRate := JsNum.num 0 },
    perUnit := [] }

/-- The dialog state a failed submit starts from in the C7 counterexample:
dialog open, confirmation snackbar closed. -/
def c7Start : DialogState :=
  { isOpen := true, openSnackbar := false }
/-- A wholly-unchecked download form state. -/
def c9NoneSelected : DownloadUIState :=
  { isRunning := false, isError := false, errorMsg := ""
    formState :=
      { experimentSelection := "expA"
        datasetCheckbox :=
          { growth_rates := false, io_events := false, od_readings_raw := false,
            od_readings_filtered := false, logs := false,
            alt_media_fraction := false } } }
/-- A download form state with one dataset selected. -/
def c9OneSelected : DownloadUIState :=
  { isRunning := false, isError := false, errorMsg := ""
    formState :=
      { experimentSelection := "expA"
        datasetCheckbox :=
          { growth_rates := true, io_events := false, od_readings_raw := false,
            od_readings_filtered := false, logs := false,
            alt_media_fraction := false } } }

/-- Sanity: `parseFloat("2.5")` is 5/2. -/
theorem sanity_parseFloat_decimal : jsParseFloat "2.5" = JsNum.num (5 / 2) := by
  simp +decide [jsParseFloat, takeDigits, digitsToNat]
  norm_num

/-- Sanity: `parseFloat("garbage")` is `NaN`. -/
theorem sanity_parseFloat_garbage : jsParseFloat "garbage" = JsNum.nan := by
  simp +decide [jsParseFloat, takeDigits]

/-- Sanity: the topic splitter matches the routing pattern layout
`pioreactor/+/+/logs/+` segment by segment. -/
theorem sanity_split_topic : jsSplitSlash "pioreactor/u1/expA/logs/app" =
    ["pioreactor", "u1", "expA", "logs", "app"] := by decide

/-- Sanity bridge: `applyDelta` agrees with `onMessageArrived` on its
topic/payload form at the claims' scenario inputs. -/
theorem sanity_applyDelta_bridge :
    onMessageArrived (telemetryTopic "expA" ⟨"u1", Metric.Primary, JsNum.num (5/2)⟩)
      "2.5" initialMediaCardState =
    applyDelta ⟨"u1", Metric.Primary, JsNum.num (5/2)⟩ initialMediaCardState := by
  have h : jsSplitSlash "pioreactor/u1/expA/throughput_calculating/media_throughput" =
      ["pioreactor", "u1", "expA", "throughput_calculating", "media_throughput"] := by
    decide
  have h2 : jsParseFloat "2.5" = JsNum.num (5 / 2) := by
    simp +decide [jsParseFloat, takeDigits, digitsToNat]
    norm_num
  simp +decide [onMessageArrived, telemetryTopic, Metric.segment, routeTelemetry,
    h, h2, applyDelta]

/-- One delta application preserves the aggregate invariant: the touched
total is recomputed from the updated map, the other side is untouched. -/
theorem fleetInvariant_applyDelta (d : TelemetryDelta) (s : MediaCardState)
    (h : fleetInvariant s) : fleetInvariant (applyDelta d s) := by
  obtain ⟨h1, h2⟩ := h
  cases hm : d.metric <;> simp [applyDelta, hm, fleetInvariant, h1, h2]

/-- Any delta sequence applied from an invariant state lands in an
invariant state. -/
theorem fleetInvariant_applyDeltas (ds : List TelemetryDelta) (s : MediaCardState)
    (h : fleetInvariant s) : fleetInvariant (applyDeltas ds s) := by
  induction ds generalizing s with
  | nil => exact h
  | cons d ds ih => exact ih _ (fleetInvariant_applyDelta d s h)

/-- C2: for every sequence of telemetry deltas applied to the fresh
`MediaCard` state, after every single application each fleet total equals
the sum of that metric's per-unit totals over all known units — any
intermediate state is `applyDeltas ds initialMediaCardState` for the
prefix `ds` delivered so far, so the invariant holds at every step. -/
theorem fleet_total_equals_sum_after_every_application
    (ds : List TelemetryDelta) :
    fleetInvariant (applyDeltas ds initialMediaCardState) :=
  fleetInvariant_applyDeltas ds initialMediaCardState ⟨rfl, rfl⟩

/-- C1 (evaluation of the code at the claim's scenario): the deltas 2.5,
1.0, 0.5 leave `perUnit = {u1: 0.5, u2: 1.0}` and a fleet total of 1.5 —
not `{u1: 3.0, u2: 1.0}` and 4.0 as claimed — because
`Object.hasOwnProperty(hash)` in `addOrUpdate` consults the `Object`
constructor, never the map, so the second `u1` delta overwrites instead of
accumulating. -/
theorem scenario_deltas_overwrite_instead_of_accumulate :
    c1Final.mediaThroughputPerUnit =
        [("u1", JsNum.num (1 / 2)), ("u2", JsNum.num 1)] ∧
    c1Final.mediaThroughput = JsNum.num (3 / 2) ∧
    getProp c1Final.mediaThroughputPerUnit "u1" ≠ some (JsNum.num 3) ∧
    c1Final.mediaThroughput ≠ JsNum.num 4 := by
  have h : c1Final.mediaThroughputPerUnit =
      [("u1", JsNum.num (1 / 2)), ("u2", JsNum.num 1)] := by
    simp +decide [c1Final, applyDeltas, applyDelta, addOrUpdate, setProp,
      initialMediaCardState]
  have h2 : c1Final.mediaThroughput = JsNum.num (3 / 2) := by
    simp +decide [c1Final, applyDeltas, applyDelta, addOrUpdate, setProp,
      sumValues, jsAdd, initialMediaCardState]
    norm_num
  refine ⟨h, h2, ?_, ?_⟩
  · rw [h]; simp +decide [getProp]
    norm_num
  · rw [h2]
    intro hc
    rw [JsNum.num.injEq] at hc
    norm_num at hc

/-- C3 (evaluation of the code at the failing input): applying the delta
`{u1, Primary, 2.5}` twice yields exactly the state of applying it once —
`u1 ↦ 2.5`, fleet total 2.5 — not the doubled `5.0`, because the
overwrite in `addOrUpdate` absorbs the duplicate instead of accumulating
it. -/
theorem duplicate_delta_not_doubled :
    c3Twice = c3Once ∧
    getProp c3Twice.mediaThroughputPerUnit "u1" = some (JsNum.num (5 / 2)) ∧
    c3Twice.mediaThroughput ≠ JsNum.num 5 := by
  have h : c3Twice = c3Once := by
    simp +decide [c3Twice, c3Once, applyDelta, addOrUpdate, setProp,
      sumValues, jsAdd, initialMediaCardState]
  refine ⟨h, ?_, ?_⟩
  · rw [h]
    simp +decide [c3Once, applyDelta, addOrUpdate, setProp, getProp,
      initialMediaCardState]
  · rw [h]
    have h2 : c3Once.mediaThroughput = JsNum.num (5 / 2) := by
      simp +decide [c3Once, applyDelta, addOrUpdate, setProp, sumValues,
        jsAdd, initialMediaCardState]
    rw [h2]
    intro hc
    rw [JsNum.num.injEq] at hc
    norm_num at hc

/-- C6 (evaluation of the code at the failing input): a malformed payload
is not discarded — `parseFloat` yields `NaN`, which is stored as `u1`'s
per-unit entry and propagates into the fleet total, so the state differs
from one where the message never arrived. -/
theorem malformed_payload_corrupts_totals :
    c6After.mediaThroughputPerUnit = [("u1", JsNum.nan)] ∧
    c6After.mediaThroughput = JsNum.nan ∧
    c6After ≠ initialMediaCardState := by
  have hsplit : jsSplitSlash "pioreactor/u1/expA/throughput_calculating/media_throughput" =
      ["pioreactor", "u1", "expA", "throughput_calculating", "media_throughput"] := by
    decide
  have hparse : jsParseFloat "garbage" = JsNum.nan := by
    simp +decide [jsParseFloat, takeDigits]
  have h : c6After.mediaThroughputPerUnit = [("u1", JsNum.nan)] ∧
      c6After.mediaThroughput = JsNum.nan := by
    simp +decide [c6After, onMessageArrived, routeTelemetry, hsplit, hparse,
      addOrUpdate, setProp, sumValues, jsAdd, initialMediaCardState]
  refine ⟨h.1, h.2, ?_⟩
  intro hc
  have : c6After.mediaThroughput = JsNum.num 0 := by rw [hc]; rfl
  rw [h.2] at this
  exact JsNum.noConfusion this

/-- C4: dispatching the command body
`{automation_key: "pid_morbidostat", skip_first_run: true}` for any unit
and experiment publishes exactly that JSON object (keys in insertion
order) to `pioreactor/<unit>/<experiment>/dosing_control/dosing_automation/set`
(segments joined by `"/"`) at QoS 2; instantiated at `"u1"`/`"expA"` the
topic is the literal `pioreactor/u1/expA/dosing_control/dosing_automation/set`. -/
theorem dosing_dispatch_topic_payload_qos (unit experiment : String)
    (s : DialogState) :
    (onSubmitDosing unit experiment ⟨"pid_morbidostat", true⟩
        PublishOutcome.ok s).published =
      some { destinationName := "pioreactor/" ++ unit ++ "/" ++ experiment ++
               "/dosing_control/dosing_automation/set"
             payloadString :=
               "\x7b\"automation_key\":\"pid_morbidostat\",\"skip_first_run\":true\x7d"
             qos := 2 } ∧
    (dosingCommandMessage "u1" "expA" ⟨"pid_morbidostat", true⟩).destinationName =
      "pioreactor/u1/expA/dosing_control/dosing_automation/set" := by
  constructor
  · simp [onSubmitDosing, dosingCommandMessage, joinSlash,
      jsonStringifyAlgoSettings, String.append_assoc]
  · rfl

/-- C5 counterexample: a reload that fails with a non-2xx response whose
body parses as JSON — a FetchError in the claim's sense — does not leave
the previously held snapshot unchanged: because `getRecentRates` never
checks `response.ok`, the error body reaches `setState` and blanks the
held 3 mL/h rates to the error payload. -/
theorem non2xx_reload_overwrites_snapshot :
    getRecentRates (FetchOutcome.response false (some c5ErrorBody)) c5Held ≠
      c5Held ∧
    (getRecentRates (FetchOutcome.response false (some c5ErrorBody)) c5Held).rates =
      c5ErrorBody := by
  constructor
  · intro h
    have h2 := congrArg (fun st => st.rates.all.mediaRate) h
    simp [getRecentRates, c5Held, c5ErrorBody, initialMediaCardState,
      JsNum.num.injEq] at h2
  · rfl

/-- C5 as amended: the held snapshot survives a reload exactly when the
promise chain rejects before the `setState` continuation — a network
failure, or a body `response.json()` cannot parse; but any HTTP response
whose body parses as JSON, non-2xx included (the source never checks
`response.ok`), replaces the snapshot wholesale while touching nothing
else. A component starts from the all-zero default snapshot. -/
theorem snapshot_reload_rejection_only_preserves :
    (∀ (s : MediaCardState),
        getRecentRates FetchOutcome.networkFailure s = s) ∧
    (∀ (ok : Bool) (s : MediaCardState),
        getRecentRates (FetchOutcome.response ok none) s = s) ∧
    (∀ (ok : Bool) (d : RateSnapshot) (s : MediaCardState),
        getRecentRates (FetchOutcome.response ok (some d)) s =
          { s with rates := d }) ∧
    initialMediaCardState.rates =
      { all := { mediaRate := JsNum.num 0, altMediaRate := JsNum.num 0 },
        perUnit := [] } :=
  ⟨fun _ => rfl, fun _ _ => rfl, fun _ _ _ => rfl, rfl⟩

/-- C7 counterexample: when `client.publish` throws, the user-visible
state after `onSubmit` is exactly the state `handleClose` produces — the
dialog merely closes, the confirmation snackbar stays closed, and the only
trace of the failure is a `console.log`; no distinct, user-visible failure
is reported, contradicting the claim. -/
theorem failed_publish_indistinguishable_from_close :
    (onSubmitDosing "u1" "expA" ⟨"pid_morbidostat", true⟩
        PublishOutcome.publishError c7Start).state = handleClose c7Start ∧
    (onSubmitDosing "u1" "expA" ⟨"pid_morbidostat", true⟩
        PublishOutcome.publishError c7Start).state.openSnackbar = false ∧
    (onSubmitDosing "u1" "expA" ⟨"pid_morbidostat", true⟩
        PublishOutcome.publishError c7Start).consoleLogged = true :=
  ⟨rfl, rfl, rfl⟩

/-- C7 as amended: the confirmation snackbar is opened and no console
error is logged exactly when the publish call returns without error; on a
publish failure the error is swallowed into `console.log`, nothing is
published, and the user-visible dialog state equals that of simply closing
the dialog. -/
theorem publish_failure_console_only (unit experiment : String)
    (a : AlgoSettings) (s : DialogState) :
    (onSubmitDosing unit experiment a PublishOutcome.ok s).state.openSnackbar
        = true ∧
    (onSubmitDosing unit experiment a PublishOutcome.ok s).consoleLogged
        = false ∧
    (onSubmitDosing unit experiment a PublishOutcome.publishError s).state.openSnackbar
        = s.openSnackbar ∧
    (onSubmitDosing unit experiment a PublishOutcome.publishError s).state
        = handleClose s ∧
    (onSubmitDosing unit experiment a PublishOutcome.publishError s).consoleLogged
        = true ∧
    (onSubmitDosing unit experiment a PublishOutcome.publishError s).published
        = none :=
  ⟨rfl, rfl, rfl, rfl, rfl, rfl⟩

/-- C8 counterexample: the `ErrorSnackbar` connect call passes
`reconnect: true`, so that bus connection does attempt automatic
reconnection after a drop — refuting "for every bus connection ... the
connect call enables no auto-retry". -/
theorem errorSnackbar_connect_enables_reconnect :
    autoReconnectOnDrop errorSnackbarConnectOptions = true :=
  rfl

/-- C8 as amended: the `MediaCard` and dosing-dialog connect calls enable
no automatic reconnection (no `reconnect` option, paho default `false`),
but the `ErrorSnackbar` connect call sets `reconnect: true`, enabling
auto-reconnection for that one connection. -/
theorem reconnect_only_for_error_snackbar :
    autoReconnectOnDrop mediaCardConnectOptions = false ∧
    autoReconnectOnDrop dosingDialogConnectOptions = false ∧
    autoReconnectOnDrop errorSnackbarConnectOptions = true :=
  ⟨rfl, rfl, rfl⟩

/-- C9: with no dataset checkbox selected, the download submit issues no
request, sets the error flag and the message "At least one dataset must be
selected.", and leaves `isRunning` and the form (selection) state
untouched; with at least one selected it sets `isRunning` and issues the
POST to `query_datasets` with the form state as body. -/
theorem download_submit_guard (s : DownloadUIState) :
    (anyChecked s.formState.datasetCheckbox = false →
        downloadOnSubmit s =
          ({ s with isError := true,
                    errorMsg := "At least one dataset must be selected." },
            none)) ∧
    (anyChecked s.formState.datasetCheckbox = true →
        downloadOnSubmit s =
          ({ s with isRunning := true },
            some { url := "query_datasets", methodPost := true,
                   body := s.formState })) := by
  constructor <;> intro h <;> simp [downloadOnSubmit, h]

/-- Witness for C9: both branches of the guard at concrete form states. -/
theorem download_submit_guard_witness :
    downloadOnSubmit c9NoneSelected =
      ({ c9NoneSelected with
           isError := true,
           errorMsg := "At least one dataset must be selected." }, none) ∧
    downloadOnSubmit c9OneSelected =
      ({ c9OneSelected with isRunning := true },
        some { url := "query_datasets", methodPost := true,
               body := c9OneSelected.formState }) :=
  ⟨(download_submit_guard c9NoneSelected).1 rfl,
   (download_submit_guard c9OneSelected).2 rfl⟩

/-- C10: an inbound log message updates and opens the notification state
exactly when the decoded level is `"ERROR"` or `"WARNING"` and the topic
does not end with `"/ui"`; every other log message leaves the notification
state entirely unchanged. -/
theorem snackbar_update_condition (relabelMap : List (String × String))
    (topic : String) (p : LogPayload) (s : SnackbarState) :
    (((p.level == "ERROR" || p.level == "WARNING")
        && !(jsEndsWith topic "/ui")) = true →
      snackbarOnMessage relabelMap topic p s =
        { s with
            renamedUnit :=
              lookupLabel relabelMap ((jsSplitSlash topic).getD 1 "undefined"),
            msg := p.message, task := p.task, level := p.level,
            unit := (jsSplitSlash topic).getD 1 "undefined",
            isOpen := true }) ∧
    (((p.level == "ERROR" || p.level == "WARNING")
        && !(jsEndsWith topic "/ui")) = false →
      snackbarOnMessage relabelMap topic p s = s) := by
  constructor <;> intro h <;> simp [snackbarOnMessage, h]

/-- Witness for C10: an `ERROR` log on a non-`/ui` topic opens and fills
the notification; the same payload on a `/ui` topic, and an `INFO` payload
on a normal topic, leave the state unchanged. -/
theorem snackbar_update_condition_witness :
    snackbarOnMessage [("u3", "labelled")] "pioreactor/u3/expA/logs/app"
        ⟨"ERROR", "boom", "stirring"⟩ initialSnackbarState =
      { isOpen := true, renamedUnit := some "labelled", unit := "u3",
        msg := "boom", level := "ERROR", task := "stirring" } ∧
    snackbarOnMessage [] "pioreactor/u3/expA/logs/ui"
        ⟨"ERROR", "boom", "stirring"⟩ initialSnackbarState =
      initialSnackbarState ∧
    snackbarOnMessage [] "pioreactor/u3/expA/logs/app"
        ⟨"INFO", "ok", "stirring"⟩ initialSnackbarState =
      initialSnackbarState :=
  ⟨(snackbar_update_condition [("u3", "labelled")] "pioreactor/u3/expA/logs/app"
      ⟨"ERROR", "boom", "stirring"⟩ initialSnackbarState).1 (by decide),
   (snackbar_update_condition [] "pioreactor/u3/expA/logs/ui"
      ⟨"ERROR", "boom", "stirring"⟩ initialSnackbarState).2 (by decide),
   (snackbar_update_condition [] "pioreactor/u3/expA/logs/app"
      ⟨"INFO", "ok", "stirring"⟩ initialSnackbarState).2 (by decide)⟩
